import Mathlib

/-!
Verification of the Content Lifecycle Orchestrator
(`backend/app/core/workflows/approval_engine.py`,
`backend/app/core/controls/system_controls.py`,
`backend/app/api/v1/endpoints/posts.py`).

Shallow embedding: enums become inductives, ORM rows become structures,
timestamps become integers (seconds), in-place mutation becomes explicit
state passing, and fallible endpoints return `Except`.
-/

namespace AgentSpec

/-- Content statuses, from `ContentStatus` in `backend/app/schemas.py`
(mirrored by the ORM enum in `app/models.py`). -/
inductive ContentStatus
  | DRAFT
  | PENDING_REVIEW
  | APPROVED
  | REJECTED
  | CHANGES_REQUESTED
  | SCHEDULED
  | PUBLISHED
  | ARCHIVED
  | CANCELLED
  deriving DecidableEq, Repr, Fintype

/-- The state-transition table `ApprovalWorkflow.TRANSITIONS` from
`approval_engine.py` lines 23-50. -/
def TRANSITIONS : ContentStatus → List ContentStatus
  | .DRAFT => [.PENDING_REVIEW, .ARCHIVED]
  | .PENDING_REVIEW => [.APPROVED, .REJECTED, .CHANGES_REQUESTED, .ARCHIVED]
  | .CHANGES_REQUESTED => [.DRAFT, .PENDING_REVIEW, .ARCHIVED]
  | .APPROVED => [.SCHEDULED, .ARCHIVED, .CANCELLED]
  | .REJECTED => [.ARCHIVED]
  | .SCHEDULED => [.PUBLISHED, .CANCELLED, .ARCHIVED]
  | .PUBLISHED => [.ARCHIVED]
  | .CANCELLED => [.ARCHIVED]
  | .ARCHIVED => []

/-- `ApprovalWorkflow.can_transition`: membership of the target in the
allowed list for the current status. -/
def can_transition (current target : ContentStatus) : Bool :=
  (TRANSITIONS current).contains target

/-- The transition table as written in spec section 4.2, stated
independently of the source so that C1 compares the two. -/
def specTransitions : ContentStatus → List ContentStatus
  | .DRAFT => [.PENDING_REVIEW, .ARCHIVED]
  | .PENDING_REVIEW => [.APPROVED, .REJECTED, .CHANGES_REQUESTED, .ARCHIVED]
  | .CHANGES_REQUESTED => [.DRAFT, .PENDING_REVIEW, .ARCHIVED]
  | .APPROVED => [.SCHEDULED, .ARCHIVED, .CANCELLED]
  | .REJECTED => [.ARCHIVED]
  | .SCHEDULED => [.PUBLISHED, .CANCELLED, .ARCHIVED]
  | .PUBLISHED => [.ARCHIVED]
  | .CANCELLED => [.ARCHIVED]
  | .ARCHIVED => []

/-- System modes, from `SystemMode` in `backend/app/schemas.py`. -/
inductive SystemMode
  | NORMAL
  | MANUAL
  | CRISIS
  deriving DecidableEq, Repr, Fintype

/-- Control actions, from `ControlAction` in `system_controls.py` lines 17-22. -/
inductive ControlAction
  | PAUSE
  | RESUME
  | SET_MANUAL
  | SET_CRISIS
  | SET_NORMAL
  deriving DecidableEq, Repr, Fintype

/-- The mutable gate state of `SystemControls`: `current_mode` and
`is_paused` (`system_controls.py` lines 37-38). -/
structure GateState where
  current_mode : SystemMode
  is_paused : Bool
  deriving DecidableEq, Repr, Fintype

/-- The constructor defaults of `SystemControls.__init__`:
mode NORMAL, not paused. -/
def initialState : GateState := { current_mode := .NORMAL, is_paused := false }

/-- The state change performed by `execute_action` for each action:
`_pause_system`, `_resume_system`, `_set_manual_mode`, `_set_crisis_mode`,
`_set_normal_mode` (`system_controls.py` lines 141-167). Observer
callbacks do not touch the mode or pause flag and are omitted. -/
def applyAction (s : GateState) (a : ControlAction) : GateState :=
  match a with
  | .PAUSE => { s with is_paused := true }
  | .RESUME => { s with is_paused := false }
  | .SET_MANUAL => { current_mode := .MANUAL, is_paused := false }
  | .SET_CRISIS => { current_mode := .CRISIS, is_paused := true }
  | .SET_NORMAL => { current_mode := .NORMAL, is_paused := false }

/-- Folding a sequence of control actions over a start state. -/
def runActions (s : GateState) (as : List ControlAction) : GateState :=
  as.foldl applyAction s

/-- `SystemControls.can_auto_approve` (`system_controls.py` lines 239-244). -/
def can_auto_approve (s : GateState) : Bool :=
  s.current_mode == .NORMAL && !s.is_paused

/-- `SystemControls.can_auto_post` (`system_controls.py` lines 246-251). -/
def can_auto_post (s : GateState) : Bool :=
  s.current_mode == .NORMAL && !s.is_paused

/-- `SystemControls.can_generate_content` (`system_controls.py`
lines 253-255). -/
def can_generate_content (s : GateState) : Bool :=
  s.current_mode != .CRISIS

/-- Python truthiness of an `Optional[int]`: `None` and `0` are falsy.
Used by the guard `if self.db and user_id:` in `_log_audit`. -/
def pyTruthyInt : Option Int → Bool
  | none => false
  | some n => n != 0

/-- One row of `AuditLog` as written by `SystemControls._log_audit`
(`system_controls.py` lines 188-205): the acting user, the action, and the
details dict holding the before/after mode and pause flag plus the notes. -/
structure AuditEntry where
  user_id : Option Int
  action : ControlAction
  previous_mode : SystemMode
  previous_paused : Bool
  new_mode : SystemMode
  new_paused : Bool
  notes : Option String
  deriving DecidableEq, Repr

/-- `SystemControls.execute_action` (`system_controls.py` lines 73-139):
snapshots the previous state, applies the action, then calls `_log_audit`,
which appends one audit row only when a database session is attached and
`user_id` is truthy (`if self.db and user_id:` at line 195). Returns the
new gate state together with the list of audit rows written. -/
def execute_action (db_present : Bool) (s : GateState) (a : ControlAction)
    (user_id : Option Int) (notes : Option String) :
    GateState × List AuditEntry :=
  let s' := applyAction s a
  let entries :=
    if db_present && pyTruthyInt user_id then
      [{ user_id := user_id, action := a,
         previous_mode := s.current_mode, previous_paused := s.is_paused,
         new_mode := s'.current_mode, new_paused := s'.is_paused,
         notes := notes }]
    else []
  (s', entries)

/-- Approval statuses, from `ApprovalStatus` in `backend/app/schemas.py`. -/
inductive ApprovalStatus
  | PENDING
  | APPROVED
  | REJECTED
  | CHANGES_REQUESTED
  deriving DecidableEq, Repr

/-- The mutable fields of an `ApprovalRequest` row that
`ApprovalWorkflow.process_approval` reads or writes. -/
structure ApprovalRecord where
  status : ApprovalStatus
  reviewer_id : Option Int
  comments : Option String
  reviewed_at : Option Int
  deriving DecidableEq, Repr

/-- The fields of a `ContentDraft` row that the coordinator and the posts
endpoints read or write. -/
structure ContentDraft where
  status : ContentStatus
  created_by : Int
  updated_at : Option Int
  deriving DecidableEq, Repr

/-- The `ApprovalAction` request schema (`schemas.py` lines 187-189):
a decision plus optional comments. -/
structure ApprovalAction where
  action : ApprovalStatus
  comments : Option String
  deriving DecidableEq, Repr

/-- The `ValueError` kinds raised by `ApprovalWorkflow.process_approval`. -/
inductive WorkflowError
  | notFound
  | alreadyProcessed
  | invalidAction
  | invalidTransition (current target : ContentStatus)
  deriving DecidableEq, Repr

/-- The draft status that `process_approval` (lines 152-159) assigns for
each decision; `PENDING` falls into the `else: raise` branch. -/
def statusForAction : ApprovalStatus → Option ContentStatus
  | .APPROVED => some .APPROVED
  | .REJECTED => some .REJECTED
  | .CHANGES_REQUESTED => some .CHANGES_REQUESTED
  | .PENDING => none

/-- `ApprovalWorkflow.process_approval` (`approval_engine.py` lines
113-187) on a record that exists, in the source's order: reject a
non-pending record, update the approval-request fields in the session,
map the decision to a draft status, validate with `can_transition`
(raising before the commit at line 171 when it fails), and otherwise
update the draft and commit both rows. -/
def process_approval (record : ApprovalRecord) (draft : ContentDraft)
    (action : ApprovalAction) (reviewer_id : Int) (now : Int) :
    Except WorkflowError (ApprovalRecord × ContentDraft) :=
  if record.status != .PENDING then .error .alreadyProcessed
  else
    let record' : ApprovalRecord :=
      { record with reviewer_id := some reviewer_id,
                    status := action.action,
                    comments := action.comments,
                    reviewed_at := some now }
    match statusForAction action.action with
    | none => .error .invalidAction
    | some new_status =>
      if can_transition draft.status new_status then
        .ok (record', { draft with status := new_status, updated_at := some now })
      else .error (.invalidTransition draft.status new_status)

/-- Modelled from the spec: the durable effect of one `process_approval`
call. `app/database.py` (the `get_db` session lifecycle) is not under
`src/`; per spec section 7, validation errors "are detected before any
mutation and leave all entities untouched", i.e. the session's uncommitted
changes are discarded when the call raises, and only the `db.commit()` at
`approval_engine.py` line 171 makes the updated rows durable. -/
def process_approval_call (record : ApprovalRecord) (draft : ContentDraft)
    (action : ApprovalAction) (reviewer_id : Int) (now : Int) :
    Option WorkflowError × ApprovalRecord × ContentDraft :=
  match process_approval record draft action reviewer_id now with
  | .ok (r, d) => (none, r, d)
  | .error e => (some e, record, draft)

/-- Dispatch statuses of a `ScheduledPost` row; the source stores them as
the literal strings "pending", "posted", "failed", "cancelled". -/
inductive PubStatus
  | pending
  | posted
  | failed
  | cancelled
  deriving DecidableEq, Repr

/-- The fields of a `ScheduledPost` row that the posts endpoints read or
write; `post_id` holds the numeric part of the external id string
`"mock_post_" ++ id` and the opaque metrics payload is omitted. -/
structure ScheduledPost where
  id : Int
  status : PubStatus
  scheduled_for : Int
  posted_at : Option Int
  post_id : Option Int
  error_message : Option String
  deriving DecidableEq, Repr

/-- The `HTTPException` kinds raised by `schedule_post` in `posts.py`. -/
inductive ScheduleError
  | gateBlocked
  | notFound
  | notApproved (s : ContentStatus)
  | notAuthorized
  | pastTime
  deriving DecidableEq, Repr

/-- `schedule_post` (`posts.py` lines 24-116), in the source's order:
gate check via `can_auto_post` before the draft lookup (lines 38-46), 404
on a missing draft, 400 unless the draft is APPROVED, 403 for a client who
does not own the draft, 400 when `scheduled_for < datetime.utcnow()`, and
otherwise a new pending `ScheduledPost` plus the draft moved to SCHEDULED,
both committed. -/
def schedule_post (gate : GateState) (draft : Option ContentDraft)
    (role : String) (user_id : Int) (new_id scheduled_for now : Int) :
    Except ScheduleError (ScheduledPost × ContentDraft) :=
  if !can_auto_post gate then .error .gateBlocked
  else
    match draft with
    | none => .error .notFound
    | some d =>
      if d.status != .APPROVED then .error (.notApproved d.status)
      else if role == "client" && d.created_by != user_id then
        .error .notAuthorized
      else if scheduled_for < now then .error .pastTime
      else
        .ok ({ id := new_id, status := .pending,
               scheduled_for := scheduled_for, posted_at := none,
               post_id := none, error_message := none },
             { d with status := .SCHEDULED, updated_at := some now })

/-- The `HTTPException` kinds raised by `cancel_scheduled_post`. -/
inductive CancelError
  | notFound
  | notAuthorized
  deriving DecidableEq, Repr

/-- `cancel_scheduled_post` (`posts.py` lines 149-185): 404 on a missing
publication, 403 for a client who does not own the parent draft, and
otherwise — with no check of the publication's current status — sets the
publication to cancelled and the parent draft back to APPROVED. -/
def cancel_scheduled_post (post : Option (ScheduledPost × ContentDraft))
    (role : String) (user_id : Int) (now : Int) :
    Except CancelError (ScheduledPost × ContentDraft) :=
  match post with
  | none => .error .notFound
  | some (p, d) =>
    if role == "client" && d.created_by != user_id then .error .notAuthorized
    else
      .ok ({ p with status := .cancelled },
           { d with status := .APPROVED, updated_at := some now })

/-- The backoff `timedelta(minutes=5)` of `_process_scheduled_post`,
in seconds. -/
def backoffSeconds : Int := 5 * 60

/-- `_process_scheduled_post` (`posts.py` lines 261-339): exit untouched
when the publication is missing or not pending; when the gate is paused or
in crisis mode, push `scheduled_for` to `utcnow() + 5 minutes` and exit
without publishing; otherwise sleep until the scheduled time and invoke
the (mocked, fallible) platform publish, recording either the posted
outcome plus the draft moved to PUBLISHED, or the failure. The returned
Bool records whether the external publish action was invoked during this
attempt. -/
def process_scheduled_post (post : Option ScheduledPost)
    (draft : ContentDraft) (gate : GateState) (now : Int)
    (publish_succeeds : Bool) :
    Option ScheduledPost × ContentDraft × Bool :=
  match post with
  | none => (none, draft, false)
  | some p =>
    if p.status != .pending then (some p, draft, false)
    else if gate.is_paused || gate.current_mode == .CRISIS then
      (some { p with scheduled_for := now + backoffSeconds }, draft, false)
    else
      let dispatch_time := max now p.scheduled_for
      if publish_succeeds then
        (some { p with status := .posted, posted_at := some dispatch_time,
                       post_id := some p.id },
         { draft with status := .PUBLISHED, updated_at := some dispatch_time },
         true)
      else
        (some { p with status := .failed,
                       error_message := some "Mock posting failed" },
         draft, true)

/-- C1: `can_transition current target` returns true exactly when `target`
is listed for `current` in the fixed table of spec section 4.2; every pair
not in the table yields false, ARCHIVED has no outgoing transitions, and
ARCHIVED is reachable from every other status. -/
theorem C1_transition_table :
    (∀ c t : ContentStatus, can_transition c t = true ↔ t ∈ specTransitions c) ∧
    (∀ t : ContentStatus, can_transition .ARCHIVED t = false) ∧
    (∀ c : ContentStatus, c ≠ .ARCHIVED → can_transition c .ARCHIVED = true) := by
  refine ⟨?_, ?_, ?_⟩ <;> decide

/-- Witness for C1 at a concrete status: DRAFT is not ARCHIVED and can
transition to ARCHIVED. -/
theorem C1_transition_table_witness :
    can_transition ContentStatus.DRAFT ContentStatus.ARCHIVED = true :=
  C1_transition_table.2.2 ContentStatus.DRAFT (by decide)

/-- C2: for every gate state, `can_generate_content` is true iff the mode
is not CRISIS, and `can_auto_approve` and `can_auto_post` are true iff the
mode is NORMAL and the pause flag is false. -/
theorem C2_gate_queries :
    ∀ s : GateState,
      (can_generate_content s = true ↔ s.current_mode ≠ SystemMode.CRISIS) ∧
      (can_auto_approve s = true ↔
        (s.current_mode = SystemMode.NORMAL ∧ s.is_paused = false)) ∧
      (can_auto_post s = true ↔
        (s.current_mode = SystemMode.NORMAL ∧ s.is_paused = false)) := by
  decide

/-- Counterexample for C3: from the initial state, SET_CRISIS followed by
RESUME reaches a state with mode = CRISIS and paused = false, because
`_resume_system` clears the pause flag without checking the mode; this
refutes the claimed invariant at the explicit action sequence
[SET_CRISIS, RESUME]. -/
theorem C3_crisis_pause_cex :
    (runActions initialState
        [ControlAction.SET_CRISIS, ControlAction.RESUME]).current_mode =
      SystemMode.CRISIS ∧
    (runActions initialState
        [ControlAction.SET_CRISIS, ControlAction.RESUME]).is_paused = false := by
  decide

/-- C3 (amended): every action other than RESUME yields a state satisfying
mode = CRISIS implies paused = true; only a RESUME issued while in crisis
mode can produce mode = CRISIS with paused = false. -/
theorem C3_crisis_pause_amended :
    ∀ (s : GateState) (a : ControlAction), a ≠ ControlAction.RESUME →
      (applyAction s a).current_mode = SystemMode.CRISIS →
      (applyAction s a).is_paused = true := by
  decide

/-- Witness for the amended C3 at SET_CRISIS from the initial state. -/
theorem C3_crisis_pause_amended_witness :
    (applyAction initialState ControlAction.SET_CRISIS).is_paused = true :=
  C3_crisis_pause_amended initialState ControlAction.SET_CRISIS
    (by decide) (by decide)

/-- C4: from every prior gate state and for every database flag, actor and
notes, `execute_action` with SET_CRISIS yields mode = CRISIS and
paused = true, and with SET_MANUAL yields mode = MANUAL and paused = false;
the resulting pause flag does not depend on the prior one. -/
theorem C4_set_modes :
    ∀ (db_present : Bool) (s : GateState) (uid : Option Int)
      (notes : Option String),
      (execute_action db_present s ControlAction.SET_CRISIS uid notes).1 =
        { current_mode := SystemMode.CRISIS, is_paused := true } ∧
      (execute_action db_present s ControlAction.SET_MANUAL uid notes).1 =
        { current_mode := SystemMode.MANUAL, is_paused := false } := by
  intro dbp s uid notes
  exact ⟨rfl, rfl⟩

/-- C5: a `process_approval` call on a pending approval record whose
mapped target status is rejected by `can_transition` from the draft's
current status fails with the invalid-transition error, and the durable
approval record and draft are exactly the ones from before the call. -/
theorem C5_invalid_transition_unchanged :
    ∀ (record : ApprovalRecord) (draft : ContentDraft)
      (action : ApprovalAction) (reviewer_id now : Int)
      (new_status : ContentStatus),
      record.status = ApprovalStatus.PENDING →
      statusForAction action.action = some new_status →
      can_transition draft.status new_status = false →
      process_approval_call record draft action reviewer_id now =
        (some (WorkflowError.invalidTransition draft.status new_status),
         record, draft) := by
  intro record draft action rid now ns hpend hmap htrans
  simp [process_approval_call, process_approval, hpend, hmap, htrans]

/-- Witness for C5: an APPROVED decision on a pending record whose draft
is still in DRAFT (DRAFT to APPROVED is not in the table) fails and leaves
both rows as they were. -/
theorem C5_invalid_transition_unchanged_witness :
    process_approval_call
        { status := ApprovalStatus.PENDING, reviewer_id := none,
          comments := none, reviewed_at := none }
        { status := ContentStatus.DRAFT, created_by := 1, updated_at := none }
        { action := ApprovalStatus.APPROVED, comments := none } 7 100 =
      (some (WorkflowError.invalidTransition ContentStatus.DRAFT
              ContentStatus.APPROVED),
       { status := ApprovalStatus.PENDING, reviewer_id := none,
         comments := none, reviewed_at := none },
       { status := ContentStatus.DRAFT, created_by := 1, updated_at := none }) :=
  C5_invalid_transition_unchanged _ _ _ 7 100 ContentStatus.APPROVED
    (by decide) (by decide) (by decide)

/-- Counterexample for C6: a pending publication scheduled for time 6000
processed at time 0 under a paused gate gets `scheduled_for` set to
0 + 300 (the attempt time plus five minutes), which is neither the old
value plus the backoff (6300) nor strictly greater than the old value. -/
theorem C6_backoff_cex :
    (process_scheduled_post
        (some { id := 1, status := PubStatus.pending, scheduled_for := 6000,
                posted_at := none, post_id := none, error_message := none })
        { status := ContentStatus.SCHEDULED, created_by := 1,
          updated_at := none }
        { current_mode := SystemMode.NORMAL, is_paused := true }
        0 true).1 =
      some { id := 1, status := PubStatus.pending, scheduled_for := 300,
             posted_at := none, post_id := none, error_message := none } ∧
    ¬ (300 : Int) = 6000 + backoffSeconds ∧ (300 : Int) < 6000 := by
  refine ⟨rfl, by decide, by decide⟩

/-- C6 (amended): a dispatch attempt on a pending publication under a
paused or crisis gate never invokes the external publish action, keeps the
publication pending, and sets `scheduled_for` to the attempt time plus the
five-minute backoff (which need not exceed the old scheduled time). -/
theorem C6_gate_blocked_reschedule :
    ∀ (p : ScheduledPost) (draft : ContentDraft) (gate : GateState)
      (now : Int) (publish_succeeds : Bool),
      p.status = PubStatus.pending →
      (gate.is_paused = true ∨ gate.current_mode = SystemMode.CRISIS) →
      process_scheduled_post (some p) draft gate now publish_succeeds =
        (some { p with scheduled_for := now + backoffSeconds }, draft, false) := by
  intro p draft gate now ps hp hg
  rcases hg with h | h <;> simp [process_scheduled_post, hp, h]

/-- Witness for the amended C6 at a concrete pending publication under a
paused gate. -/
theorem C6_gate_blocked_reschedule_witness :
    process_scheduled_post
        (some { id := 1, status := PubStatus.pending, scheduled_for := 6000,
                posted_at := none, post_id := none, error_message := none })
        { status := ContentStatus.SCHEDULED, created_by := 1,
          updated_at := none }
        { current_mode := SystemMode.NORMAL, is_paused := true } 0 true =
      (some { id := 1, status := PubStatus.pending,
              scheduled_for := 0 + backoffSeconds, posted_at := none,
              post_id := none, error_message := none },
       { status := ContentStatus.SCHEDULED, created_by := 1,
         updated_at := none }, false) :=
  C6_gate_blocked_reschedule _ _ _ 0 true rfl (Or.inl rfl)

/-- Counterexample for C7: with the gate open and an APPROVED draft, a
schedule call whose `scheduled_for` equals the current time succeeds and
creates a pending publication, because the source only rejects
`scheduled_for < datetime.utcnow()`; the claim says this call must fail. -/
theorem C7_equal_time_cex :
    schedule_post { current_mode := SystemMode.NORMAL, is_paused := false }
        (some { status := ContentStatus.APPROVED, created_by := 1,
                updated_at := none })
        "admin" 1 1 1000 1000 =
      .ok ({ id := 1, status := PubStatus.pending, scheduled_for := 1000,
             posted_at := none, post_id := none, error_message := none },
           { status := ContentStatus.SCHEDULED, created_by := 1,
             updated_at := some 1000 }) := by
  rfl

/-- C7 (amended): with the gate open, an APPROVED draft and an authorized
caller, the schedule call fails with the invalid-time error exactly when
`scheduled_for` is strictly before the current time (creating nothing and
leaving the draft APPROVED), and creates a pending publication, moving the
draft to SCHEDULED, whenever `scheduled_for` is at or after the current
time. -/
theorem C7_schedule_time_check :
    ∀ (gate : GateState) (d : ContentDraft) (role : String)
      (user_id new_id scheduled_for now : Int),
      can_auto_post gate = true →
      d.status = ContentStatus.APPROVED →
      (role == "client" && d.created_by != user_id) = false →
      (scheduled_for < now →
        schedule_post gate (some d) role user_id new_id scheduled_for now =
          .error .pastTime) ∧
      (now ≤ scheduled_for →
        schedule_post gate (some d) role user_id new_id scheduled_for now =
          .ok ({ id := new_id, status := PubStatus.pending,
                 scheduled_for := scheduled_for, posted_at := none,
                 post_id := none, error_message := none },
               { d with status := ContentStatus.SCHEDULED,
                        updated_at := some now })) := by
  intro gate d role uid nid t now hgate hst hperm
  constructor
  · intro hlt
    simp [schedule_post, hgate, hst, hperm, hlt]
  · intro hle
    simp [schedule_post, hgate, hst, hperm, not_lt.mpr hle]

/-- Witness for the amended C7: a strictly past time is rejected. -/
theorem C7_schedule_time_check_witness :
    schedule_post { current_mode := SystemMode.NORMAL, is_paused := false }
        (some { status := ContentStatus.APPROVED, created_by := 1,
                updated_at := none })
        "admin" 1 1 500 1000 = .error .pastTime :=
  (C7_schedule_time_check
    { current_mode := SystemMode.NORMAL, is_paused := false }
    { status := ContentStatus.APPROVED, created_by := 1, updated_at := none }
    "admin" 1 1 500 1000 (by decide) rfl (by decide)).1 (by decide)

/-- C8: the code at the failing input of the claim. `cancel_scheduled_post`
checks only existence and ownership, never the publication's status: a
cancel on an already-posted publication succeeds, marks it cancelled, and
moves the parent draft from PUBLISHED back to APPROVED — a transition the
repository's own table forbids. -/
theorem C8_cancel_published_behavior :
    cancel_scheduled_post
        (some ({ id := 1, status := PubStatus.posted, scheduled_for := 1000,
                 posted_at := some 1000, post_id := some 1,
                 error_message := none },
               { status := ContentStatus.PUBLISHED, created_by := 1,
                 updated_at := some 1000 }))
        "admin" 2 2000 =
      .ok ({ id := 1, status := PubStatus.cancelled, scheduled_for := 1000,
             posted_at := some 1000, post_id := some 1,
             error_message := none },
           { status := ContentStatus.APPROVED, created_by := 1,
             updated_at := some 2000 }) ∧
    can_transition ContentStatus.PUBLISHED ContentStatus.APPROVED = false := by
  exact ⟨rfl, by decide⟩

/-- Counterexample for C9: a successful `execute_action` with no acting
user id writes zero audit entries, not exactly one, because `_log_audit`
is guarded by `if self.db and user_id:`. -/
theorem C9_audit_cex :
    (execute_action true initialState ControlAction.PAUSE none none).2.length
        = 0 ∧
    ¬ (execute_action true initialState
        ControlAction.PAUSE none none).2.length = 1 := by
  decide

/-- C9 (amended): a successful `execute_action` with a database session
attached and a truthy (present, non-zero) actor id writes exactly one
audit entry capturing the before-state, the after-state, the actor and the
action; with no session or a falsy actor id it writes none. -/
theorem C9_audit_one_entry :
    ∀ (db_present : Bool) (s : GateState) (a : ControlAction)
      (uid : Option Int) (notes : Option String),
      (db_present = true → pyTruthyInt uid = true →
        (execute_action db_present s a uid notes).2 =
          [{ user_id := uid, action := a,
             previous_mode := s.current_mode, previous_paused := s.is_paused,
             new_mode := (applyAction s a).current_mode,
             new_paused := (applyAction s a).is_paused,
             notes := notes }]) ∧
      ((db_present = false ∨ pyTruthyInt uid = false) →
        (execute_action db_present s a uid notes).2 = []) := by
  intro dbp s a uid notes
  constructor
  · intro hdb huid
    simp [execute_action, hdb, huid]
  · intro h
    rcases h with h | h <;> simp [execute_action, h]

/-- Witness for the amended C9: SET_CRISIS by user 7 with a session writes
the single audit entry recording NORMAL/unpaused before and
CRISIS/paused after. -/
theorem C9_audit_one_entry_witness :
    (execute_action true initialState ControlAction.SET_CRISIS
        (some 7) none).2 =
      [{ user_id := some 7, action := ControlAction.SET_CRISIS,
         previous_mode := SystemMode.NORMAL, previous_paused := false,
         new_mode := SystemMode.CRISIS, new_paused := true,
         notes := none }] :=
  (C9_audit_one_entry true initialState ControlAction.SET_CRISIS
    (some 7) none).1 rfl (by decide)

/-- C10: whenever the gate disallows auto-posting (mode not NORMAL or
paused), `schedule_post` fails with the gate-blocked error for every draft
argument — including a missing, non-APPROVED or differently-owned draft
and any scheduled time — so the draft is never consulted and nothing is
created or modified. -/
theorem C10_gate_blocked_before_lookup :
    ∀ (gate : GateState) (draft : Option ContentDraft) (role : String)
      (user_id new_id scheduled_for now : Int),
      (gate.current_mode ≠ SystemMode.NORMAL ∨ gate.is_paused = true) →
      schedule_post gate draft role user_id new_id scheduled_for now =
        .error .gateBlocked := by
  intro gate draft role uid nid t now h
  have hgate : can_auto_post gate = false := by
    rcases gate with ⟨m, p⟩
    rcases h with h | h <;> cases m <;> simp_all [can_auto_post]
  simp [schedule_post, hgate]

/-- Witness for C10: in MANUAL mode, a schedule call with no draft at all
is rejected as gate-blocked. -/
theorem C10_gate_blocked_before_lookup_witness :
    schedule_post { current_mode := SystemMode.MANUAL, is_paused := false }
        none "admin" 1 1 0 0 = .error .gateBlocked :=
  C10_gate_blocked_before_lookup _ none "admin" 1 1 0 0 (Or.inl (by decide))

end AgentSpec
